import Mathlib

/-!
# Verification of the bme680-influx sampling-and-delivery loop

Shallow embedding of `src/main.rs`: a program that periodically reads a
BME680 environmental sensor and forwards four metrics (temperature,
pressure, humidity, gas resistance) to an InfluxDB instance.

Numeric sensor values are `f32`/`f64` in the source; the program performs
no arithmetic on them (the only numeric operation is the exact `f32 → f64`
widening cast), so they are modelled in `ℚ`, which is a faithful carrier
for pass-through values.
-/

namespace Bme680Influx

/-- `bme680::FieldDataCondition` (sensor driver crate): whether the returned
data is a freshly completed measurement (`NewData`) or unchanged since the
previous read (`Unchanged`). -/
inductive FieldDataCondition where
  | NewData
  | Unchanged
deriving DecidableEq, Repr, Inhabited

/-- `bme680::FieldData` as consumed by `main.rs` through its four accessor
methods `temperature_celsius`, `pressure_hpa`, `humidity_percent`,
`gas_resistance_ohm`. The accessors (driver-internal raw-to-physical
conversions) are modelled as the stored physical values. -/
structure FieldData where
  temperature_celsius : ℚ
  pressure_hpa : ℚ
  humidity_percent : ℚ
  gas_resistance_ohm : ℚ
deriving DecidableEq, Repr, Inhabited

/-- `influent::measurement::Value` as used by `main.rs` (only the `Float`
variant occurs, holding the `as f64`-cast sensor value). -/
inductive Value where
  | Float (v : ℚ)
deriving DecidableEq, Repr, Inhabited

/-- `influent::client::ClientError`: classification of a failed write as
reported by the database client crate. The classes are opaque to this
program, which only logs them. -/
inductive ClientError where
  | CouldNotComplete (msg : String)
  | Communication (msg : String)
  | Unexpected (msg : String)
  | Unknown
deriving DecidableEq, Repr, Inhabited

/-- `influent::measurement::Measurement`: a named point with fields and
tags. The crate stores fields/tags in a map keyed by name; `main.rs` only
ever inserts distinct keys, so insertion-ordered association lists are an
exact model. -/
structure Measurement where
  name : String
  fields : List (String × Value)
  tags : List (String × String)
deriving DecidableEq, Repr, Inhabited

/-- `Measurement::new(name)`. -/
def Measurement.new (name : String) : Measurement :=
  ⟨name, [], []⟩

/-- `Measurement::add_field(key, value)`. -/
def Measurement.add_field (m : Measurement) (key : String) (v : Value) : Measurement :=
  { m with fields := m.fields ++ [(key, v)] }

/-- `Measurement::add_tag(key, value)`. -/
def Measurement.add_tag (m : Measurement) (key : String) (v : String) : Measurement :=
  { m with tags := m.tags ++ [(key, v)] }

/-- The `"type"` tag of a measurement, used to state which metric a write
request carries. -/
def Measurement.typeTag (m : Measurement) : Option String :=
  (m.tags.find? (fun p => p.1 == "type")).map Prod.snd

/-- `send_value` from `main.rs` (lines 108-120): builds the write request
for one metric. The source returns a future that performs
`client.write_one(measurement, None)`; the request it carries is the
measurement built here. -/
def send_value (type_name : String) (value : Value) : Measurement :=
  let m := Measurement.new "sensor"
  let m := m.add_field "value" value
  let m := m.add_tag "id" "MAC"
  let m := m.add_tag "name" "bme680"
  let m := m.add_tag "type" type_name
  m

/-!
## Model of `futures::future::try_join4`

Each in-flight write is modelled as a `WriteFuture`: the request it
carries, the number of polls (`duration`) it needs to reach its terminal
outcome, and that outcome (`result`). `try_join4` polls the four futures
together, in argument order, once per round. Its documented semantics
(futures 0.3): it resolves `Ok` of the tuple once all four have succeeded,
and it resolves with the FIRST error produced by any future, at which
point the remaining unfinished futures are dropped (cancelled) and never
reach a terminal outcome.

Hence, denotationally: the first error is the erroring future with the
least `duration`, ties broken by argument order (earlier arguments are
polled first within a round); the futures that reach a terminal outcome by
the return round `T` are those with `duration < T`, plus those with
`duration = T` polled no later than the erroring future in the final
round.
-/

deriving instance DecidableEq for Except

/-- A single in-flight metric write: the request, the number of polls
until its terminal outcome, and that outcome. -/
structure WriteFuture where
  measurement : Measurement
  duration : ℕ
  result : Except ClientError Unit
deriving DecidableEq, Repr, Inhabited

/-- Whether this future's terminal outcome is an error. -/
def WriteFuture.isErr (f : WriteFuture) : Bool :=
  match f.result with
  | .error _ => true
  | .ok _ => false

/-- The error of this future's terminal outcome, or a default. -/
def WriteFuture.errOr (f : WriteFuture) (d : ClientError) : ClientError :=
  match f.result with
  | .error e => e
  | .ok _ => d

/-- Result of awaiting a join of writes: the value `try_join4` resolves
with, the poll round at which it resolves, and the indices of the futures
that reached a terminal outcome by then (the others were cancelled). -/
structure JoinResult where
  result : Except ClientError Unit
  returnRound : ℕ
  completed : List ℕ
deriving DecidableEq, Repr, Inhabited

/-- One step of the scan for the first future to fail: keep the erroring
index of least `duration` seen so far, preferring the earlier index on
ties. -/
def errStep (fs : List WriteFuture) (acc : Option ℕ) (i : ℕ) : Option ℕ :=
  if (fs.getD i default).isErr then
    match acc with
    | none => some i
    | some j =>
      if (fs.getD i default).duration < (fs.getD j default).duration then some i
      else some j
  else acc

/-- Index of the first future to fail under round-by-round in-order
polling: among the erroring futures, the one of least `duration`, earliest
argument position on ties. `none` when every future succeeds. -/
def firstErrIdx (fs : List WriteFuture) : Option ℕ :=
  (List.range fs.length).foldl (errStep fs) none

/-- Awaiting a try-join of a list of write futures (see the module note on
`try_join4` semantics). -/
def joinAll (fs : List WriteFuture) : JoinResult :=
  match firstErrIdx fs with
  | none =>
    ⟨Except.ok (), (fs.map WriteFuture.duration).foldl max 0, List.range fs.length⟩
  | some i0 =>
    let T := (fs.getD i0 default).duration
    ⟨Except.error ((fs.getD i0 default).errOr ClientError.Unknown), T,
      (List.range fs.length).filter
        (fun j => decide ((fs.getD j default).duration < T ∨
          ((fs.getD j default).duration = T ∧ j ≤ i0)))⟩

/-- `future::try_join4(a, b, c, d).await` as used at `main.rs` line 98. -/
def try_join4 (f1 f2 f3 f4 : WriteFuture) : JoinResult :=
  joinAll [f1, f2, f3, f4]

/-!
## The per-cycle loop body (`main.rs` lines 65-102)

Each timer tick runs one cycle: `dev.get_sensor_data()` (propagating its
error out of the loop via `?` after an `eprintln`), console logging, and —
when `state != FieldDataCondition::NewData` — the construction of four
write futures joined with `try_join4`, whose error, if any, is only
logged. The environment (sensor behaviour and how long each write takes
and whether it succeeds) is an input per tick.
-/

/-- Behaviour of one database write in a given cycle: how many polls it
takes and its terminal outcome (determined by the network/server, an
input of the model). -/
structure WriteBehavior where
  duration : ℕ
  result : Except ClientError Unit
deriving DecidableEq, Repr, Inhabited

/-- The external inputs consumed by one cycle: the result of
`get_sensor_data()` (error payload modelled as a string) and the
behaviour of the four metric writes, in source order
(temperature, pressure, humidity, gasresistence). -/
structure CycleInput where
  sensor : Except String (FieldData × FieldDataCondition)
  wtemp : WriteBehavior
  wpress : WriteBehavior
  whum : WriteBehavior
  wgas : WriteBehavior
deriving DecidableEq, Repr, Inhabited

/-- Whether `get_sensor_data()` succeeds this cycle. -/
def CycleInput.sensorOk (i : CycleInput) : Bool :=
  match i.sensor with
  | .ok _ => true
  | .error _ => false

/-- A write future: the request built by `send_value` together with the
environment-determined behaviour of the write. -/
def mkFuture (m : Measurement) (b : WriteBehavior) : WriteFuture :=
  ⟨m, b.duration, b.result⟩

/-- The four write requests a dispatching cycle builds from its reading
(`main.rs` lines 77-96), in source order. -/
def cycleMeasurements (data : FieldData) : List Measurement :=
  [send_value "temperature" (Value.Float data.temperature_celsius),
   send_value "pressure" (Value.Float data.pressure_hpa),
   send_value "humidity" (Value.Float data.humidity_percent),
   send_value "gasresistence" (Value.Float data.gas_resistance_ohm)]

/-- The write requests issued in a cycle whose reading is `data` and whose
readiness state is `state`: the four metrics when
`state != FieldDataCondition::NewData`, none otherwise (`main.rs` line 76). -/
def cycleWrites (data : FieldData) (state : FieldDataCondition) : List Measurement :=
  if state ≠ FieldDataCondition.NewData then cycleMeasurements data else []

/-- Outcome of one cycle: the sensor read failed (the `?` at line 68
propagates the error out of the loop), or the dispatch condition did not
hold and no write was issued, or the four writes were dispatched and
joined. -/
inductive CycleOutcome where
  | fatal (e : String)
  | skipped (data : FieldData) (state : FieldDataCondition)
  | dispatched (data : FieldData) (requests : List Measurement) (join : JoinResult)
deriving DecidableEq, Repr, Inhabited

/-- Whether the cycle ended in a sensor error (which exits the loop). -/
def CycleOutcome.isFatal : CycleOutcome → Bool
  | .fatal _ => true
  | _ => false

/-- Number of write calls issued by the cycle. -/
def CycleOutcome.writesIssued : CycleOutcome → ℕ
  | .dispatched _ requests _ => requests.length
  | _ => 0

/-- The aggregate write error the cycle logs to the error stream
(`if let Err(e) = ... { eprintln!(...) }`, `main.rs` lines 98-100), if any. -/
def CycleOutcome.loggedError : CycleOutcome → Option ClientError
  | .dispatched _ _ j =>
    match j.result with
    | .error e => some e
    | .ok _ => none
  | _ => none

/-- One loop iteration (`main.rs` lines 65-102). -/
def runCycle (input : CycleInput) : CycleOutcome :=
  match input.sensor with
  | .error e => .fatal e
  | .ok (data, state) =>
    if state ≠ FieldDataCondition.NewData then
      .dispatched data (cycleMeasurements data)
        (try_join4
          (mkFuture (send_value "temperature" (Value.Float data.temperature_celsius)) input.wtemp)
          (mkFuture (send_value "pressure" (Value.Float data.pressure_hpa)) input.wpress)
          (mkFuture (send_value "humidity" (Value.Float data.humidity_percent)) input.whum)
          (mkFuture (send_value "gasresistence" (Value.Float data.gas_resistance_ohm)) input.wgas))
    else
      .skipped data state

/-!
## The scheduler loop (`main.rs` lines 63-104)

`Interval::new(Duration::from_secs(60))` yields a tick every 60 seconds,
forever (the stream never ends, so the `while let` never falls through to
the final `Ok(())`). We observe the loop after `n` ticks: either it is
still running, with the list of the cycle outcomes so far (one per tick),
or a sensor error made some cycle return `Err` out of `main`.
-/

/-- The period of the timer driving the loop, in seconds
(`Duration::from_secs(60)`, `main.rs` line 63). -/
def intervalPeriodSecs : ℕ := 60

/-- State of the loop after a number of ticks. -/
inductive LoopResult where
  | running (history : List CycleOutcome)
  | exited (history : List CycleOutcome) (err : String)
deriving DecidableEq, Repr, Inhabited

/-- The loop after `n` ticks, given the per-tick inputs `env`. Once a
cycle is fatal, `main` has returned `Err(())` and no further tick runs a
cycle. -/
def runLoop (env : ℕ → CycleInput) : ℕ → LoopResult
  | 0 => .running []
  | n + 1 =>
    match runLoop env n with
    | .exited h e => .exited h e
    | .running h =>
      match runCycle (env n) with
      | .fatal e => .exited h e
      | .skipped d s => .running (h ++ [.skipped d s])
      | .dispatched d reqs j => .running (h ++ [.dispatched d reqs j])

/-- The value `main` has returned after `n` ticks, if it has returned:
a fatal cycle makes `main` return `Err(())` (non-zero process exit under
the runtime's termination handling); while running, `main` has not
returned. The `Ok(())` after the loop is unreachable since the interval
stream never ends. -/
def mainResult (env : ℕ → CycleInput) (n : ℕ) : Option (Except Unit Unit) :=
  match runLoop env n with
  | .exited _ _ => some (Except.error ())
  | .running _ => none

/-!
## Startup (`main.rs` lines 33-61)

In order: `I2cdev::new("/dev/i2c-1").unwrap()` — note the `unwrap`, which
panics on error — then `Bme680::init(..).map_err(eprintln)?`,
`set_sensor_settings(..).map_err(eprintln)?`, the (infallible) influx
client construction, and `set_sensor_mode(ForcedMode).map_err(eprintln)?`.
Each `?` after `map_err` prints a diagnostic to stderr and returns
`Err(())` from `main`; the `unwrap` instead panics with no such
diagnostic.
-/

/-- Results of the fallible startup calls (error payloads as strings). -/
structure StartupEnv where
  i2c_new : Except String Unit
  bme680_init : Except String Unit
  set_sensor_settings : Except String Unit
  set_sensor_mode : Except String Unit
deriving DecidableEq, Repr, Inhabited

/-- How startup ends: a panic (from `unwrap`), an error return from `main`
after printing the given diagnostic to stderr (non-zero exit), or entry
into the loop. -/
inductive StartupOutcome where
  | panicked (stage : String)
  | errExit (diagnostic : String)
  | entersLoop
deriving DecidableEq, Repr, Inhabited

/-- The startup sequence of `main` (`main.rs` lines 33-61). -/
def runStartup (env : StartupEnv) : StartupOutcome :=
  match env.i2c_new with
  | .error _ => .panicked "I2cdev::new"
  | .ok () =>
    match env.bme680_init with
    | .error e => .errExit ("Init failed: " ++ e)
    | .ok () =>
      match env.set_sensor_settings with
      | .error e => .errExit ("Setting sensor settings failed: " ++ e)
      | .ok () =>
        match env.set_sensor_mode with
        | .error e => .errExit ("Setting sensor mode failed: " ++ e)
        | .ok () => .entersLoop

/-!
## Concrete sample inputs (used to instantiate the verified properties)
-/

/-- A sample reading: 22.5 °C, 1013 hPa, 40 %, 50000 Ω. -/
def sampleData : FieldData := ⟨45/2, 1013, 40, 50000⟩

/-- A write that succeeds after one poll. -/
def okWrite : WriteBehavior := ⟨1, Except.ok ()⟩

/-- A write that fails after one poll. -/
def badWrite : WriteBehavior := ⟨1, Except.error ClientError.Unknown⟩

/-- A cycle whose reading is dispatched (state `Unchanged`) and whose four
writes all succeed. -/
def sampleInput : CycleInput :=
  ⟨Except.ok (sampleData, FieldDataCondition.Unchanged), okWrite, okWrite, okWrite, okWrite⟩

/-- A cycle whose reading is dispatched but whose first write fails. -/
def sampleFailInput : CycleInput :=
  ⟨Except.ok (sampleData, FieldDataCondition.Unchanged), badWrite, okWrite, okWrite, okWrite⟩

/-- A cycle whose sensor read fails. -/
def badSensorInput : CycleInput :=
  ⟨Except.error "sensor failure", okWrite, okWrite, okWrite, okWrite⟩

/-!
## Helper lemmas
-/

lemma range_four : List.range 4 = [0, 1, 2, 3] := rfl

lemma errStep_some_isSome (fs : List WriteFuture) (j i : ℕ) :
    (errStep fs (some j) i).isSome := by
  unfold errStep
  (repeat' split) <;> simp

lemma foldl_errStep_isSome (fs : List WriteFuture) (l : List ℕ) :
    ∀ acc : Option ℕ, acc.isSome → (l.foldl (errStep fs) acc).isSome := by
  induction l with
  | nil => intro acc h; simpa using h
  | cons a t ih =>
    intro acc h
    rcases hacc : acc with _ | j
    · rw [hacc] at h; simp at h
    · rw [List.foldl_cons]
      rcases hstep : errStep fs (some j) a with _ | k
      · have := errStep_some_isSome fs j a
        rw [hstep] at this; simp at this
      · exact ih (some k) (by simp)

lemma foldl_errStep_mem_isSome (fs : List WriteFuture) (l : List ℕ) :
    ∀ (acc : Option ℕ) (i : ℕ), i ∈ l → (fs.getD i default).isErr = true →
      (l.foldl (errStep fs) acc).isSome := by
  induction l with
  | nil => intro acc i h; simp at h
  | cons a t ih =>
    intro acc i hmem herr
    rw [List.foldl_cons]
    rcases List.mem_cons.mp hmem with rfl | hmt
    · apply foldl_errStep_isSome
      unfold errStep
      rw [herr]
      simp only [if_true]
      rcases acc with _ | j
      · simp
      · (repeat' split) <;> simp
    · exact ih _ i hmt herr

lemma firstErrIdx_four_none_iff (f1 f2 f3 f4 : WriteFuture) :
    firstErrIdx [f1, f2, f3, f4] = none ↔
      (f1.result = Except.ok () ∧ f2.result = Except.ok () ∧
       f3.result = Except.ok () ∧ f4.result = Except.ok ()) := by
  constructor
  · intro h
    have key : ∀ i : ℕ, i ∈ List.range 4 → ¬ (([f1, f2, f3, f4].getD i default).isErr = true) := by
      intro i hi herr
      have := foldl_errStep_mem_isSome [f1, f2, f3, f4] (List.range 4) none i hi herr
      rw [show (List.range 4).foldl (errStep [f1, f2, f3, f4]) none
            = firstErrIdx [f1, f2, f3, f4] from rfl, h] at this
      simp at this
    refine ⟨?_, ?_, ?_, ?_⟩
    · have := key 0 (by simp [range_four])
      rcases hr : f1.result with e | u
      · exact absurd (by simp [WriteFuture.isErr, hr]) this
      · cases u; rfl
    · have := key 1 (by simp [range_four])
      rcases hr : f2.result with e | u
      · exact absurd (by simp [WriteFuture.isErr, hr]) this
      · cases u; rfl
    · have := key 2 (by simp [range_four])
      rcases hr : f3.result with e | u
      · exact absurd (by simp [WriteFuture.isErr, hr]) this
      · cases u; rfl
    · have := key 3 (by simp [range_four])
      rcases hr : f4.result with e | u
      · exact absurd (by simp [WriteFuture.isErr, hr]) this
      · cases u; rfl
  · rintro ⟨h1, h2, h3, h4⟩
    simp [firstErrIdx, errStep, range_four, WriteFuture.isErr, h1, h2, h3, h4]

lemma joinAll_result_ok_iff (fs : List WriteFuture) :
    (joinAll fs).result = Except.ok () ↔ firstErrIdx fs = none := by
  unfold joinAll
  rcases h : firstErrIdx fs with _ | i0 <;> simp [h]

lemma firstErrIdx_first_of_min (f1 f2 f3 f4 : WriteFuture) (e : ClientError)
    (h1 : f1.result = Except.error e)
    (d2 : f1.duration ≤ f2.duration) (d3 : f1.duration ≤ f3.duration)
    (d4 : f1.duration ≤ f4.duration) :
    firstErrIdx [f1, f2, f3, f4] = some 0 := by
  have n2 : ¬ f2.duration < f1.duration := Nat.not_lt.mpr d2
  have n3 : ¬ f3.duration < f1.duration := Nat.not_lt.mpr d3
  have n4 : ¬ f4.duration < f1.duration := Nat.not_lt.mpr d4
  simp [firstErrIdx, errStep, range_four, WriteFuture.isErr, h1, n2, n3, n4]

lemma joinAll_some_result (fs : List WriteFuture) (i0 : ℕ) (h : firstErrIdx fs = some i0) :
    (joinAll fs).result = Except.error ((fs.getD i0 default).errOr ClientError.Unknown) := by
  unfold joinAll; rw [h]

lemma runCycle_fatal_iff (input : CycleInput) (e : String) :
    runCycle input = CycleOutcome.fatal e ↔ input.sensor = Except.error e := by
  rcases h : input.sensor with e' | ⟨data, state⟩
  · simp only [runCycle, h]
    simp
  · simp only [runCycle, h]
    split <;> simp

lemma runCycle_not_fatal (input : CycleInput) (h : input.sensorOk = true) :
    (runCycle input).isFatal = false := by
  rcases hs : input.sensor with e | ⟨d, s⟩
  · simp [CycleInput.sensorOk, hs] at h
  · simp only [runCycle, hs]
    split <;> rfl

lemma runLoop_running_of_sensorOk (env : ℕ → CycleInput) :
    ∀ n : ℕ, (∀ k, k < n → (env k).sensorOk = true) →
      runLoop env n = LoopResult.running ((List.range n).map (fun k => runCycle (env k))) := by
  intro n
  induction n with
  | zero => intro _; simp [runLoop]
  | succ n ih =>
    intro h
    have hn := ih (fun k hk => h k (Nat.lt_succ_of_lt hk))
    have hfat : (runCycle (env n)).isFatal = false :=
      runCycle_not_fatal _ (h n (Nat.lt_succ_self n))
    simp only [runLoop, hn]
    rcases hc : runCycle (env n) with e | ⟨d, s⟩ | ⟨d, reqs, j⟩
    · rw [hc] at hfat; simp [CycleOutcome.isFatal] at hfat
    · simp [List.range_succ, hc]
    · simp [List.range_succ, hc]

lemma runLoop_running_hist (env : ℕ → CycleInput) :
    ∀ (n : ℕ) (hist : List CycleOutcome), runLoop env n = LoopResult.running hist →
      hist = (List.range n).map (fun k => runCycle (env k)) := by
  intro n
  induction n with
  | zero => intro hist h; simp [runLoop] at h; simp [h.symm]
  | succ n ih =>
    intro hist h
    simp only [runLoop] at h
    rcases hr : runLoop env n with h' | ⟨h', e'⟩ <;> rw [hr] at h
    · rcases hc : runCycle (env n) with e | ⟨d, s⟩ | ⟨d, reqs, j⟩ <;> rw [hc] at h
      · simp at h
      · simp at h
        rw [List.range_succ, List.map_append, ← ih h' hr, ← h]
        simp [hc]
      · simp at h
        rw [List.range_succ, List.map_append, ← ih h' hr, ← h]
        simp [hc]
    · simp at h

lemma runLoop_exited_sensor_error (env : ℕ → CycleInput) :
    ∀ (n : ℕ) (hist : List CycleOutcome) (e : String),
      runLoop env n = LoopResult.exited hist e →
      ∃ k, k < n ∧ (env k).sensor = Except.error e := by
  intro n
  induction n with
  | zero => intro hist e h; simp [runLoop] at h
  | succ n ih =>
    intro hist e h
    simp only [runLoop] at h
    rcases hr : runLoop env n with h' | ⟨h', e'⟩ <;> rw [hr] at h
    · rcases hc : runCycle (env n) with e'' | ⟨d, s⟩ | ⟨d, reqs, j⟩ <;> rw [hc] at h
      · simp at h
        exact ⟨n, Nat.lt_succ_self n, by
          rw [(runCycle_fatal_iff (env n) e'').mp hc, h.2]⟩
      · simp at h
      · simp at h
    · simp at h
      obtain ⟨k, hk, hke⟩ := ih h' e' hr
      exact ⟨k, Nat.lt_succ_of_lt hk, by rw [hke, h.2]⟩

lemma runLoop_exited_step (env : ℕ → CycleInput) (n : ℕ) (hist : List CycleOutcome)
    (e : String) (h : runLoop env n = LoopResult.exited hist e) :
    runLoop env (n + 1) = LoopResult.exited hist e := by
  simp only [runLoop, h]

lemma runCycle_dispatched_inv (input : CycleInput) (d : FieldData)
    (reqs : List Measurement) (j : JoinResult)
    (h : runCycle input = CycleOutcome.dispatched d reqs j) :
    ∃ s, input.sensor = Except.ok (d, s) ∧ s ≠ FieldDataCondition.NewData ∧
      reqs = cycleMeasurements d := by
  rcases hs : input.sensor with e | ⟨d', s⟩
  · simp only [runCycle, hs] at h
    simp at h
  · simp only [runCycle, hs] at h
    by_cases hn : s ≠ FieldDataCondition.NewData
    · rw [if_pos hn] at h
      obtain ⟨hd, hreqs, hj⟩ := CycleOutcome.dispatched.inj h
      exact ⟨s, by rw [hd], hn, by rw [← hreqs, hd]⟩
    · rw [if_neg hn] at h
      simp at h

/-!
## The verified properties
-/

/-- C1 (amended): in a dispatching cycle the four metric writes are
launched and polled concurrently; when all four succeed, `try_join4`
returns only after the slowest of them has completed, and all four reach a
terminal outcome; but when a write fails, the join is fail-fast: it
resolves at the first error and cancels the writes still in flight, which
never reach a terminal outcome. -/
theorem dispatch_join_fail_fast :
    (∀ f1 f2 f3 f4 : WriteFuture,
      f1.result = Except.ok () → f2.result = Except.ok () →
      f3.result = Except.ok () → f4.result = Except.ok () →
      (try_join4 f1 f2 f3 f4).result = Except.ok () ∧
      (try_join4 f1 f2 f3 f4).completed = [0, 1, 2, 3] ∧
      (try_join4 f1 f2 f3 f4).returnRound =
        max (max (max f1.duration f2.duration) f3.duration) f4.duration) ∧
    (∀ (f1 f2 f3 f4 : WriteFuture) (e : ClientError),
      f1.result = Except.error e →
      f2.result = Except.ok () → f3.result = Except.ok () → f4.result = Except.ok () →
      f1.duration < f2.duration → f1.duration < f3.duration → f1.duration < f4.duration →
      (try_join4 f1 f2 f3 f4).result = Except.error e ∧
      (try_join4 f1 f2 f3 f4).returnRound = f1.duration ∧
      (try_join4 f1 f2 f3 f4).completed = [0]) := by
  constructor
  · intro f1 f2 f3 f4 h1 h2 h3 h4
    have hn : firstErrIdx [f1, f2, f3, f4] = none :=
      (firstErrIdx_four_none_iff f1 f2 f3 f4).mpr ⟨h1, h2, h3, h4⟩
    simp only [try_join4, joinAll, hn]
    refine ⟨by simp, by simp [range_four], ?_⟩
    simp [Nat.zero_max]
  · intro f1 f2 f3 f4 e h1 _ _ _ hd2 hd3 hd4
    have hidx : firstErrIdx [f1, f2, f3, f4] = some 0 :=
      firstErrIdx_first_of_min f1 f2 f3 f4 e h1 (le_of_lt hd2) (le_of_lt hd3) (le_of_lt hd4)
    have n2 : ¬ f2.duration < f1.duration := Nat.lt_asymm hd2
    have n3 : ¬ f3.duration < f1.duration := Nat.lt_asymm hd3
    have n4 : ¬ f4.duration < f1.duration := Nat.lt_asymm hd4
    have e2 : f2.duration ≠ f1.duration := (Nat.ne_of_lt hd2).symm
    have e3 : f3.duration ≠ f1.duration := (Nat.ne_of_lt hd3).symm
    have e4 : f4.duration ≠ f1.duration := (Nat.ne_of_lt hd4).symm
    refine ⟨?_, ?_, ?_⟩
    · rw [try_join4, joinAll_some_result _ 0 hidx]
      simp [WriteFuture.errOr, h1]
    · simp only [try_join4, joinAll, hidx]
      rfl
    · simp only [try_join4, joinAll, hidx]
      simp [range_four, List.filter, n2, n3, n4, e2, e3, e4]

/-- Witness for C1: one write failing after one poll while the other three
need five polls — the join resolves at round 1 with the error and only the
failed write has reached a terminal outcome. -/
theorem dispatch_join_fail_fast_witness :
    (try_join4 ⟨Measurement.new "sensor", 1, Except.error ClientError.Unknown⟩
        ⟨Measurement.new "sensor", 5, Except.ok ()⟩
        ⟨Measurement.new "sensor", 5, Except.ok ()⟩
        ⟨Measurement.new "sensor", 5, Except.ok ()⟩).result =
      Except.error ClientError.Unknown ∧
    (try_join4 ⟨Measurement.new "sensor", 1, Except.error ClientError.Unknown⟩
        ⟨Measurement.new "sensor", 5, Except.ok ()⟩
        ⟨Measurement.new "sensor", 5, Except.ok ()⟩
        ⟨Measurement.new "sensor", 5, Except.ok ()⟩).returnRound = 1 ∧
    (try_join4 ⟨Measurement.new "sensor", 1, Except.error ClientError.Unknown⟩
        ⟨Measurement.new "sensor", 5, Except.ok ()⟩
        ⟨Measurement.new "sensor", 5, Except.ok ()⟩
        ⟨Measurement.new "sensor", 5, Except.ok ()⟩).completed = [0] :=
  dispatch_join_fail_fast.2 _ _ _ _ ClientError.Unknown rfl rfl rfl rfl
    (by decide) (by decide) (by decide)

/-- C1 counterexample: refutes the claim as stated. With the first write
failing after one poll and the other three (which would succeed) needing
five polls, the dispatch step returns with only the failed write having
reached a terminal outcome: the three pending writes are cancelled, not
driven to completion. -/
theorem dispatch_join_counterexample :
    (try_join4 ⟨Measurement.new "sensor", 1, Except.error ClientError.Unknown⟩
        ⟨Measurement.new "sensor", 5, Except.ok ()⟩
        ⟨Measurement.new "sensor", 5, Except.ok ()⟩
        ⟨Measurement.new "sensor", 5, Except.ok ()⟩).completed = [0] ∧
    ¬ ((try_join4 ⟨Measurement.new "sensor", 1, Except.error ClientError.Unknown⟩
        ⟨Measurement.new "sensor", 5, Except.ok ()⟩
        ⟨Measurement.new "sensor", 5, Except.ok ()⟩
        ⟨Measurement.new "sensor", 5, Except.ok ()⟩).completed = [0, 1, 2, 3]) := by
  decide

/-- C2: a cycle dispatches metrics iff the readiness state is not the
fresh/new-data state: with `state ≠ NewData` exactly four write calls are
issued, with `state = NewData` zero write calls are issued. -/
theorem extractor_dispatch_iff_not_new :
    ∀ (input : CycleInput) (data : FieldData) (state : FieldDataCondition),
      input.sensor = Except.ok (data, state) →
      ((state ≠ FieldDataCondition.NewData ↔ (runCycle input).writesIssued = 4) ∧
       (state = FieldDataCondition.NewData ↔ (runCycle input).writesIssued = 0)) := by
  intro input data state h
  simp only [runCycle, h]
  by_cases hn : state = FieldDataCondition.NewData
  · subst hn
    simp [CycleOutcome.writesIssued]
  · simp [hn, CycleOutcome.writesIssued, cycleMeasurements]

/-- Witness for C2 at a concrete dispatching cycle. -/
theorem extractor_dispatch_iff_not_new_witness :
    (FieldDataCondition.Unchanged ≠ FieldDataCondition.NewData ↔
      (runCycle sampleInput).writesIssued = 4) ∧
    (FieldDataCondition.Unchanged = FieldDataCondition.NewData ↔
      (runCycle sampleInput).writesIssued = 0) :=
  extractor_dispatch_iff_not_new sampleInput sampleData FieldDataCondition.Unchanged rfl

/-- C3: for a reading whose readiness state satisfies the dispatch
condition, exactly four write calls are issued, whose metric names are
exactly temperature, pressure, humidity, gasresistence — none missing,
duplicated or added. -/
theorem dispatch_exactly_four_metrics :
    ∀ (data : FieldData) (state : FieldDataCondition),
      state ≠ FieldDataCondition.NewData →
      (cycleWrites data state).length = 4 ∧
      (cycleWrites data state).map Measurement.typeTag =
        [some "temperature", some "pressure", some "humidity", some "gasresistence"] ∧
      ∀ input : CycleInput, input.sensor = Except.ok (data, state) →
        (runCycle input).writesIssued = 4 := by
  intro data state h
  refine ⟨?_, ?_, ?_⟩
  · simp [cycleWrites, h, cycleMeasurements]
  · simp only [cycleWrites, if_pos h]
    rfl
  · intro input hi
    simp only [runCycle, hi]
    simp [h, CycleOutcome.writesIssued, cycleMeasurements]

/-- Witness for C3 at a concrete reading with state `Unchanged`. -/
theorem dispatch_exactly_four_metrics_witness :
    (cycleWrites sampleData FieldDataCondition.Unchanged).length = 4 ∧
    (cycleWrites sampleData FieldDataCondition.Unchanged).map Measurement.typeTag =
      [some "temperature", some "pressure", some "humidity", some "gasresistence"] ∧
    ∀ input : CycleInput,
      input.sensor = Except.ok (sampleData, FieldDataCondition.Unchanged) →
      (runCycle input).writesIssued = 4 :=
  dispatch_exactly_four_metrics sampleData FieldDataCondition.Unchanged (by decide)

/-- C4: every write request built by `send_value` is a point named
`"sensor"` with the single field `value` carrying the passed-through
value, and exactly the tags `id = "MAC"`, `name = "bme680"` and
`type = <metric name>`; and a cycle's four requests carry the reading's
converted values unchanged. -/
theorem send_value_request_shape :
    (∀ (type_name : String) (v : Value),
      send_value type_name v =
        { name := "sensor", fields := [("value", v)],
          tags := [("id", "MAC"), ("name", "bme680"), ("type", type_name)] }) ∧
    (∀ data : FieldData,
      (cycleMeasurements data).map Measurement.fields =
        [[("value", Value.Float data.temperature_celsius)],
         [("value", Value.Float data.pressure_hpa)],
         [("value", Value.Float data.humidity_percent)],
         [("value", Value.Float data.gas_resistance_ohm)]]) :=
  ⟨fun _ _ => rfl, fun _ => rfl⟩

/-- C5: the join of the four writes succeeds exactly when all four
individual writes succeed; when any fails, the single aggregate failure
carries the classification of the first error. -/
theorem join_success_iff_all_ok :
    ∀ f1 f2 f3 f4 : WriteFuture,
      ((try_join4 f1 f2 f3 f4).result = Except.ok () ↔
        (f1.result = Except.ok () ∧ f2.result = Except.ok () ∧
         f3.result = Except.ok () ∧ f4.result = Except.ok ())) ∧
      (∀ e : ClientError,
        f1.result = Except.error e →
        f1.duration ≤ f2.duration → f1.duration ≤ f3.duration → f1.duration ≤ f4.duration →
        (try_join4 f1 f2 f3 f4).result = Except.error e) := by
  intro f1 f2 f3 f4
  constructor
  · rw [try_join4, joinAll_result_ok_iff]
    exact firstErrIdx_four_none_iff f1 f2 f3 f4
  · intro e h1 d2 d3 d4
    rw [try_join4, joinAll_some_result _ 0 (firstErrIdx_first_of_min f1 f2 f3 f4 e h1 d2 d3 d4)]
    simp [WriteFuture.errOr, h1]

/-- Witness for C5: the first write errs at round 1 while the others need
two polls; the aggregate result is that first error. -/
theorem join_success_iff_all_ok_witness :
    (try_join4 ⟨Measurement.new "sensor", 1, Except.error ClientError.Unknown⟩
        ⟨Measurement.new "sensor", 2, Except.ok ()⟩
        ⟨Measurement.new "sensor", 2, Except.ok ()⟩
        ⟨Measurement.new "sensor", 2, Except.ok ()⟩).result =
      Except.error ClientError.Unknown :=
  (join_success_iff_all_ok ⟨Measurement.new "sensor", 1, Except.error ClientError.Unknown⟩
      ⟨Measurement.new "sensor", 2, Except.ok ()⟩
      ⟨Measurement.new "sensor", 2, Except.ok ()⟩
      ⟨Measurement.new "sensor", 2, Except.ok ()⟩).2
    ClientError.Unknown rfl (by decide) (by decide) (by decide)


/-- C6: per-cycle write errors are caught at the dispatcher boundary and
reduced to a logged aggregate; they are never propagated out to stop the
scheduler: whatever the write outcomes of cycle `n` (any combination of
failures), the loop proceeds to cycle `n + 1`. -/
theorem write_errors_do_not_stop_loop :
    ∀ (env : ℕ → CycleInput) (n : ℕ) (hist : List CycleOutcome),
      runLoop env n = LoopResult.running hist →
      (env n).sensorOk = true →
      runLoop env (n + 1) = LoopResult.running (hist ++ [runCycle (env n)]) ∧
      ∀ (d : FieldData) (reqs : List Measurement) (jr : JoinResult) (e : ClientError),
        runCycle (env n) = CycleOutcome.dispatched d reqs jr →
        jr.result = Except.error e →
        (runCycle (env n)).loggedError = some e := by
  intro env n hist hrun hok
  constructor
  · have hfat := runCycle_not_fatal _ hok
    simp only [runLoop, hrun]
    rcases hc : runCycle (env n) with e | ⟨d, s⟩ | ⟨d, reqs, jr⟩
    · rw [hc] at hfat; simp [CycleOutcome.isFatal] at hfat
    · rfl
    · rfl
  · intro d reqs jr e hc hjr
    rw [hc]
    simp [CycleOutcome.loggedError, hjr]

/-- Witness for C6: a cycle whose first write fails still leaves the loop
running at the next tick, with the aggregate error logged. -/
theorem write_errors_do_not_stop_loop_witness :
    runLoop (fun _ => sampleFailInput) (0 + 1) =
      LoopResult.running ([] ++ [runCycle ((fun _ => sampleFailInput) 0)]) ∧
    ∀ (d : FieldData) (reqs : List Measurement) (jr : JoinResult) (e : ClientError),
      runCycle ((fun _ => sampleFailInput) 0) = CycleOutcome.dispatched d reqs jr →
      jr.result = Except.error e →
      (runCycle ((fun _ => sampleFailInput) 0)).loggedError = some e :=
  write_errors_do_not_stop_loop (fun _ => sampleFailInput) 0 [] rfl rfl

/-- C7: a sensor read failure in cycle `n` is propagated out of the loop:
for every later tick the loop has exited with the history frozen at `n`
cycles (no retry, no further measurement), and `main` has returned
`Err(())`, i.e. the process terminates with non-zero status. -/
theorem sensor_error_exits_loop :
    ∀ (env : ℕ → CycleInput) (n : ℕ) (e : String),
      (∀ k, k < n → (env k).sensorOk = true) →
      (env n).sensor = Except.error e →
      ∀ m, n < m →
        runLoop env m =
          LoopResult.exited ((List.range n).map (fun k => runCycle (env k))) e ∧
        mainResult env m = some (Except.error ()) := by
  intro env n e hok hsen
  have base : runLoop env (n + 1) =
      LoopResult.exited ((List.range n).map (fun k => runCycle (env k))) e := by
    have hrun := runLoop_running_of_sensorOk env n hok
    simp only [runLoop, hrun]
    have hfatal : runCycle (env n) = CycleOutcome.fatal e :=
      (runCycle_fatal_iff _ _).mpr hsen
    rw [hfatal]
  have key : ∀ j : ℕ, runLoop env (n + 1 + j) =
      LoopResult.exited ((List.range n).map (fun k => runCycle (env k))) e := by
    intro j
    induction j with
    | zero => exact base
    | succ j ih => exact runLoop_exited_step env (n + 1 + j) _ e ih
  intro m hm
  have hr := key (m - (n + 1))
  rw [show n + 1 + (m - (n + 1)) = m by omega] at hr
  refine ⟨hr, ?_⟩
  unfold mainResult
  rw [hr]

/-- Witness for C7: a sensor failure at the very first tick exits the loop
with an empty history. -/
theorem sensor_error_exits_loop_witness :
    runLoop (fun _ => badSensorInput) 1 =
      LoopResult.exited ((List.range 0).map (fun k => runCycle ((fun _ => badSensorInput) k)))
        "sensor failure" ∧
    mainResult (fun _ => badSensorInput) 1 = some (Except.error ()) :=
  sensor_error_exits_loop (fun _ => badSensorInput) 0 "sensor failure"
    (fun k hk => absurd hk (Nat.not_lt_zero k)) rfl 1 (by decide)

/-- C8: the scheduler's timer period is fixed at 60 seconds; while no
sensor error occurs the loop is still running after any number `n` of
ticks, having performed exactly one cycle (one measurement) per tick and
never having returned from `main`; and the only way the loop ends is a
sensor error propagated out of some cycle. -/
theorem scheduler_runs_forever :
    intervalPeriodSecs = 60 ∧
    (∀ (env : ℕ → CycleInput) (n : ℕ),
      (∀ k, k < n → (env k).sensorOk = true) →
      ∃ hist : List CycleOutcome,
        runLoop env n = LoopResult.running hist ∧ hist.length = n ∧
        mainResult env n = none) ∧
    (∀ (env : ℕ → CycleInput) (n : ℕ) (hist : List CycleOutcome) (e : String),
      runLoop env n = LoopResult.exited hist e →
      ∃ k, k < n ∧ (env k).sensor = Except.error e) := by
  refine ⟨rfl, ?_, ?_⟩
  · intro env n hok
    refine ⟨(List.range n).map (fun k => runCycle (env k)),
      runLoop_running_of_sensorOk env n hok, by simp, ?_⟩
    unfold mainResult
    rw [runLoop_running_of_sensorOk env n hok]
  · intro env n hist e h
    exact runLoop_exited_sensor_error env n hist e h

/-- Witness for C8: with an always-succeeding environment, after three
ticks the loop is running with three cycle outcomes and `main` has not
returned. -/
theorem scheduler_runs_forever_witness :
    ∃ hist : List CycleOutcome,
      runLoop (fun _ => sampleInput) 3 = LoopResult.running hist ∧ hist.length = 3 ∧
      mainResult (fun _ => sampleInput) 3 = none :=
  scheduler_runs_forever.2.1 (fun _ => sampleInput) 3 (fun _ _ => rfl)

/-- C9: the four metric requests dispatched in cycle `k` are all derived
from the one reading produced by that cycle's own measurement — the
dispatched data is exactly what cycle `k`'s sensor call returned, and the
requests are exactly the four metrics of that reading, so no value from
another cycle's reading is mixed in. -/
theorem metrics_from_same_reading :
    ∀ (env : ℕ → CycleInput) (n : ℕ) (hist : List CycleOutcome),
      runLoop env n = LoopResult.running hist →
      ∀ (k : ℕ) (d : FieldData) (reqs : List Measurement) (jr : JoinResult),
        k < n →
        hist.getD k (CycleOutcome.fatal "") = CycleOutcome.dispatched d reqs jr →
        ∃ s, (env k).sensor = Except.ok (d, s) ∧ s ≠ FieldDataCondition.NewData ∧
          reqs = cycleMeasurements d := by
  intro env n hist hrun k d reqs jr hk hget
  have hh := runLoop_running_hist env n hist hrun
  subst hh
  have hlen : k < ((List.range n).map (fun k => runCycle (env k))).length := by
    simpa using hk
  rw [List.getD_eq_getElem _ _ hlen, List.getElem_map, List.getElem_range] at hget
  exact runCycle_dispatched_inv (env k) d reqs jr hget

/-- Witness for C9: after one tick of an always-dispatching environment,
the sole history entry's requests come from that cycle's own reading. -/
theorem metrics_from_same_reading_witness :
    ∃ s, ((fun _ => sampleInput) 0).sensor = Except.ok (sampleData, s) ∧
      s ≠ FieldDataCondition.NewData ∧
      cycleMeasurements sampleData = cycleMeasurements sampleData :=
  metrics_from_same_reading (fun _ => sampleInput) 1 [runCycle sampleInput] rfl
    0 sampleData (cycleMeasurements sampleData)
    (try_join4
      (mkFuture (send_value "temperature" (Value.Float sampleData.temperature_celsius)) okWrite)
      (mkFuture (send_value "pressure" (Value.Float sampleData.pressure_hpa)) okWrite)
      (mkFuture (send_value "humidity" (Value.Float sampleData.humidity_percent)) okWrite)
      (mkFuture (send_value "gasresistence" (Value.Float sampleData.gas_resistance_ohm)) okWrite))
    (by decide) rfl

/-- C10: a failure opening the I2C bus device panics (the `unwrap` at
`main.rs` line 35) instead of following the diagnostic-then-`Err` path
that every other startup failure takes; the two behaviours are distinct
outcomes, so the diagnostic-then-non-zero-exit path does not cover the
bus-open failure. -/
theorem i2c_open_failure_panics :
    (∀ (env : StartupEnv) (e : String),
      env.i2c_new = Except.error e →
      runStartup env = StartupOutcome.panicked "I2cdev::new") ∧
    (∀ (env : StartupEnv) (e : String),
      env.i2c_new = Except.ok () → env.bme680_init = Except.error e →
      runStartup env = StartupOutcome.errExit ("Init failed: " ++ e)) ∧
    (∀ (env : StartupEnv) (e : String),
      env.i2c_new = Except.ok () → env.bme680_init = Except.ok () →
      env.set_sensor_settings = Except.error e →
      runStartup env = StartupOutcome.errExit ("Setting sensor settings failed: " ++ e)) ∧
    (∀ (env : StartupEnv) (e : String),
      env.i2c_new = Except.ok () → env.bme680_init = Except.ok () →
      env.set_sensor_settings = Except.ok () → env.set_sensor_mode = Except.error e →
      runStartup env = StartupOutcome.errExit ("Setting sensor mode failed: " ++ e)) ∧
    (∀ s d : String, StartupOutcome.panicked s ≠ StartupOutcome.errExit d) := by
  refine ⟨?_, ?_, ?_, ?_, ?_⟩
  · intro env e h
    simp only [runStartup, h]
  · intro env e h1 h2
    simp only [runStartup, h1, h2]
  · intro env e h1 h2 h3
    simp only [runStartup, h1, h2, h3]
  · intro env e h1 h2 h3 h4
    simp only [runStartup, h1, h2, h3, h4]
  · intro s d
    simp

/-- Witness for C10: a concrete failing bus open panics, while a concrete
failing sensor init takes the diagnostic-then-`Err` path. -/
theorem i2c_open_failure_panics_witness :
    runStartup ⟨Except.error "no bus", Except.ok (), Except.ok (), Except.ok ()⟩ =
      StartupOutcome.panicked "I2cdev::new" ∧
    runStartup ⟨Except.ok (), Except.error "no device", Except.ok (), Except.ok ()⟩ =
      StartupOutcome.errExit ("Init failed: " ++ "no device") :=
  ⟨i2c_open_failure_panics.1 ⟨Except.error "no bus", Except.ok (), Except.ok (), Except.ok ()⟩
      "no bus" rfl,
   i2c_open_failure_panics.2.1
      ⟨Except.ok (), Except.error "no device", Except.ok (), Except.ok ()⟩ "no device" rfl rfl⟩


end Bme680Influx
